import Mathlib

/-!
Verification of the ephemeral-storage exporter's snapshot manager and metric
emitter (`collector.go`), as a shallow embedding in Lean 4.

The embedding follows the Go source:
  * `stats.FsStats` byte fields are `*uint64`, hence `Option Nat` here
    (a `none` models a nil pointer; dereferencing `none` models a Go panic);
  * `stats.PodStats.EphemeralStorage` is `*stats.FsStats`, hence
    `Option FsStats`; `PodStats.PodRef` is a plain (non-pointer) struct;
  * the manager's `podEphemeralStorageStats []*podEphemeralStorageStat` is a
    slice of pointers; where pointer identity matters (`RecentStats` copy-out)
    it is modelled with an explicit heap of records addressed by `Nat`;
  * goroutine lifecycle (`Start`/`Stop`, `sync.WaitGroup`, `m.lock`) is
    modelled as an atomic step machine: `m.lock` serialises the two calls, so
    each completed call is one transition; a call that can never return
    (blocking forever on the lock or on `wg.Wait`) yields `.neverReturns`.
-/

namespace EphemeralStorage

/-- `stats.FsStats` (k8s.io/kubelet stats v1alpha1), restricted to the three
byte fields the exporter reads. Each is a `*uint64` in Go: `none` is a nil
pointer. -/
structure FsStats where
  usedBytes : Option Nat
  availableBytes : Option Nat
  capacityBytes : Option Nat
deriving DecidableEq, Repr

/-- `stats.PodReference`: a plain struct (not a pointer) inside `PodStats`;
a JSON payload omitting it leaves the zero value (empty strings). -/
structure PodReference where
  name : String
  «namespace» : String
deriving DecidableEq, Repr

/-- `stats.PodStats`, restricted to the fields the exporter reads.
`EphemeralStorage` is `*stats.FsStats`, so `none` models a nil pointer. -/
structure PodStats where
  podRef : PodReference
  ephemeralStorage : Option FsStats
deriving DecidableEq, Repr

/-- `stats.NodeStats`, restricted to the node name. -/
structure NodeStats where
  nodeName : String
deriving DecidableEq, Repr

/-- `stats.Summary`, restricted to the fields the exporter reads. -/
structure Summary where
  node : NodeStats
  pods : List PodStats
deriving DecidableEq, Repr

/-- The zero value `stats.Summary{}`: what `raw` still holds after
`json.Unmarshal` fails on nil/empty content (the loop ignores the unmarshal
error with `_ =`). -/
def emptySummary : Summary := { node := { nodeName := "" }, pods := [] }

/-- `podEphemeralStorageStat`: the manager's per-pod record. The Go struct
embeds `*stats.FsStats`; the embedded pointer is `fsStats : Option FsStats`
here (`none` = nil). -/
structure podEphemeralStorageStat where
  nodeName : String
  podName : String
  «namespace» : String
  fsStats : Option FsStats
deriving DecidableEq, Repr

/-- The snapshot-build loop inside `manager.Start`'s goroutine: one record is
appended per entry of `raw.Pods`, projecting `podRef.Namespace`,
`raw.Node.NodeName`, `podRef.Name` and the (possibly nil) `EphemeralStorage`
pointer. There is no conditional: no entry is skipped. -/
def buildSnapshot (raw : Summary) : List podEphemeralStorageStat :=
  raw.pods.map (fun podStat =>
    { «namespace» := podStat.podRef.«namespace»
      nodeName := raw.node.nodeName
      podName := podStat.podRef.name
      fsStats := podStat.ephemeralStorage })

/-- One poll cycle of the goroutine body, from the fetch result to the
published snapshot. On a fetch error the source merely logs (`klog.Error`)
and falls through: `content` is nil, `json.Unmarshal` fails and its error is
discarded, so `raw` remains the zero `stats.Summary{}` and the build/publish
still run. The previous snapshot is never read: the publish replaces it
unconditionally. -/
def pollCycle (fetched : Except String Summary)
    (_prev : List podEphemeralStorageStat) : List podEphemeralStorageStat :=
  let raw : Summary :=
    match fetched with
    | .error _ => emptySummary
    | .ok s => s
  buildSnapshot raw

/-- Which event woke the loop at its `select` point. -/
inductive WakeReason
  | stopSignal
  | timerFired
deriving DecidableEq, Repr

/-- Outcome of one iteration of the polling loop. -/
structure LoopIterResult where
  exited : Bool
  published : List podEphemeralStorageStat
deriving DecidableEq, Repr

/-- One iteration of the `for { select { case <-m.stopCh: case <-timer.C: }
... }` loop. Both `select` cases have empty bodies, so the chosen case does
not affect control flow: the body always runs through fetch, build and
publish, and the goroutine contains no `return` or `break`, so the iteration
never exits the loop. `_wake` is therefore unused, exactly as in the source. -/
def loopIter (_wake : WakeReason) (fetched : Except String Summary)
    (prev : List podEphemeralStorageStat) : LoopIterResult :=
  { exited := false, published := pollCycle fetched prev }

/-- Lifecycle state of the manager, as guarded by `m.lock`.
`loopCount` counts live polling goroutines (the goroutine's `for` loop has no
exit path, so a spawned loop never terminates and the count never decreases).
`blocked` records that a `Stop` call is parked forever in `m.wg.Wait()` while
holding `m.lock`. -/
structure LifeState where
  running : Bool
  loopCount : Nat
  blocked : Bool
deriving DecidableEq, Repr

/-- The two lifecycle calls. -/
inductive Op
  | start
  | stop
deriving DecidableEq, Repr

/-- How a lifecycle call completes. `neverReturns`: the call blocks forever
(on `m.lock` held by a parked `Stop`, or in `m.wg.Wait()` since the polling
goroutine never reaches its deferred `wg.Done`). -/
inductive CallResult
  | ok
  | alreadyRunningError
  | neverReturns
deriving DecidableEq, Repr

/-- One lifecycle call as an atomic transition (`m.lock` serialises them).
`Start`: error if already running, else set `running`, make a stop channel,
spawn the loop. `Stop`: warning + nil if not running; otherwise
`close(m.stopCh); m.wg.Wait()` — and since the goroutine's deferred
`wg.Done()` is unreachable (its `for` loop has no exit), `Wait` never
returns, the deferred `m.running = false` never executes, and the lock is
held forever. -/
def step (s : LifeState) (op : Op) : LifeState × CallResult :=
  if s.blocked then (s, .neverReturns)
  else
    match op with
    | .start =>
        if s.running then (s, .alreadyRunningError)
        else ({ s with running := true, loopCount := s.loopCount + 1 }, .ok)
    | .stop =>
        if s.running then ({ s with blocked := true }, .neverReturns)
        else (s, .ok)

/-- Manager state at construction: not running, no loop. -/
def initLife : LifeState := { running := false, loopCount := 0, blocked := false }

/-- Run a sequence of lifecycle calls from a given state. -/
def runFrom (s : LifeState) (ops : List Op) : LifeState :=
  ops.foldl (fun t op => (step t op).1) s

/-- Run a sequence of lifecycle calls from the constructed manager. -/
def runOps (ops : List Op) : LifeState := runFrom initLife ops

/-- The argument of `timer.Reset(m.scrapeInterval - duration)` in nanoseconds:
`time.Duration` is a signed 64-bit count, so the subtraction is over `Int`
and no clamping is performed by the source. -/
def resetArg (scrapeInterval duration : Int) : Int := scrapeInterval - duration

/-- Behaviour of `time.Timer.Reset` in the Go runtime: a non-positive
duration makes the timer fire immediately, so the effective delay before the
timer channel fires is `max d 0`. (This models the standard library, not
this repository's code; the repository passes `resetArg` to it unchanged.) -/
def timerEffectiveWait (d : Int) : Int := max d 0

/-- One emitted metric sample: metric name, value and the
`(node_name, namespace_name, pod_name)` label values. The value is the `Nat`
carried by the payload (the Go code converts it through `float64`; the two
agree on every value the claims exercise). The unlabeled error gauge uses
empty label strings. -/
structure Sample where
  metricName : String
  value : Nat
  nodeName : String
  namespaceName : String
  podName : String
deriving DecidableEq, Repr

/-- `ephemeralStorageMetric`: name plus value extractor. `getValue` in Go is
`func(stats *stats.FsStats) float64` and dereferences nil-able pointers;
a result of `none` models the nil-pointer-dereference panic. -/
structure ephemeralStorageMetric where
  name : String
  getValue : Option FsStats → Option Nat

/-- The three storage metrics of `newEphemeralStorageCollector`, in source
order. Each extractor is `float64(*stats.X)`: reading a field of a nil
`*FsStats`, or dereferencing a nil `*uint64` field, panics — modelled by the
`Option.bind` returning `none`. -/
def storageMetrics : List ephemeralStorageMetric :=
  [ { name := "ephemeral_storage_pod_used_bytes"
      getValue := fun fs => fs.bind (fun st => st.usedBytes) },
    { name := "ephemeral_storage_pod_available_bytes"
      getValue := fun fs => fs.bind (fun st => st.availableBytes) },
    { name := "ephemeral_storage_pod_capacity_bytes"
      getValue := fun fs => fs.bind (fun st => st.capacityBytes) } ]

/-- `collectEphemeralStorageInfo`: outer loop over the three metrics, inner
loop over the snapshot's records; every (metric, pod) pair unconditionally
emits `MustNewConstMetric(desc, type, metric.getValue(stat.FsStats), labels…)`.
A panic inside `getValue` aborts the whole collection: result `none`. -/
def collectEphemeralStorageInfo (snap : List podEphemeralStorageStat) :
    Option (List Sample) :=
  (storageMetrics.mapM (fun (metric : ephemeralStorageMetric) =>
    snap.mapM (fun (stat : podEphemeralStorageStat) =>
      (metric.getValue stat.fsStats).map (fun v =>
        { metricName := metric.name
          value := v
          nodeName := stat.nodeName
          namespaceName := stat.«namespace»
          podName := stat.podName })))).map List.flatten

/-- The `ephemeral_storage_scrape_error` gauge sample. `Collect` sets it to 0
before collecting and the loop never threads an error flag to the collector,
so the emitted value is always 0; the gauge carries no labels. -/
def errorGaugeSample : Sample :=
  { metricName := "ephemeral_storage_scrape_error"
    value := 0
    nodeName := ""
    namespaceName := ""
    podName := "" }

/-- `ephemeralStorageCollector.Collect`: `errors.Set(0)`, then the storage
samples, then the error gauge. A panic during the storage collection
prevents the gauge from being emitted (result `none`). -/
def Collect (snap : List podEphemeralStorageStat) : Option (List Sample) :=
  (collectEphemeralStorageInfo snap).map (fun samples =>
    samples ++ [errorGaugeSample])

/-- Zero value of `podEphemeralStorageStat` (used as the out-of-bounds
default of heap reads; never reachable under the validity hypotheses). -/
def defaultStat : podEphemeralStorageStat :=
  { nodeName := "", podName := "", «namespace» := "", fsStats := none }

/-- Pointer-level store for `RecentStats`. The manager field
`podEphemeralStorageStats []*podEphemeralStorageStat` is a slice of
pointers: `heap` holds the pointed-to records (a cell per address, address =
index) and `stored` the manager's slice of addresses. -/
structure Mem where
  heap : List podEphemeralStorageStat
  stored : List Nat
deriving DecidableEq, Repr

/-- Pointer dereference. -/
def deref (h : List podEphemeralStorageStat) (a : Nat) :
    podEphemeralStorageStat := h.getD a defaultStat

/-- `manager.RecentStats`: under `statsLock`, `ret = append(ret, *stat)` for
each stored pointer — each record is dereferenced and its value copied into
a freshly allocated backing array. The fresh cells are appended to the heap
and the call returns their addresses; the manager's `stored` slice is
untouched. -/
def RecentStats (m : Mem) : List Nat × Mem :=
  (List.range' m.heap.length m.stored.length,
   { heap := m.heap ++ m.stored.map (deref m.heap), stored := m.stored })

/-- The record values a slice of addresses denotes in a heap (what a caller
observes when reading the returned slice). -/
def readList (h : List podEphemeralStorageStat) (addrs : List Nat) :
    List podEphemeralStorageStat := addrs.map (deref h)

/-- A write through the returned slice: overwrite the record stored in one
heap cell (e.g. assigning to a returned record's named field builds a new
record value in its cell). -/
def heapWrite (h : List podEphemeralStorageStat) (a : Nat)
    (v : podEphemeralStorageStat) : List podEphemeralStorageStat := h.set a v

/-- Every stored pointer is a valid address of the heap. -/
def Mem.valid (m : Mem) : Prop := ∀ a ∈ m.stored, a < m.heap.length

/-! Concrete fixtures used by witnesses and counterexamples (the 2-pod
payload of the spec's own example: pod A with all three byte fields, pod B
missing `availableBytes`). -/

/-- Pod A's stats: used=100, available=200, capacity=300. -/
def fsA : FsStats :=
  { usedBytes := some 100, availableBytes := some 200, capacityBytes := some 300 }

/-- Pod B's stats: `availableBytes` absent (nil `*uint64`). -/
def fsB : FsStats :=
  { usedBytes := some 50, availableBytes := none, capacityBytes := some 500 }

/-- Record for pod A. -/
def podA : podEphemeralStorageStat :=
  { nodeName := "node1", podName := "pod-a", «namespace» := "ns1", fsStats := some fsA }

/-- Record for pod B (present stats struct, absent `availableBytes`). -/
def podB : podEphemeralStorageStat :=
  { nodeName := "node1", podName := "pod-b", «namespace» := "ns1", fsStats := some fsB }

/-- The spec example's 2-pod snapshot. -/
def examplePods : List podEphemeralStorageStat := [podA, podB]

/-- A payload with one fully populated pod (used by the cycle-1 fetch). -/
def okSummary : Summary :=
  { node := { nodeName := "node1" }
    pods := [ { podRef := { name := "pod-a", «namespace» := "ns1" }
                ephemeralStorage := some fsA } ] }

/-- A payload whose single pod has no ephemeral-storage sub-structure
(`EphemeralStorage` is nil), e.g. a pod that has just been created. -/
def newPodSummary : Summary :=
  { node := { nodeName := "node1" }
    pods := [ { podRef := { name := "pod-new", «namespace» := "ns1" }
                ephemeralStorage := none } ] }

/-- A concrete pointer store: two records on the heap, both stored. -/
def exampleMem : Mem := { heap := [podA, podB], stored := [0, 1] }

/-! Lifecycle invariant: reachable manager states have at most one loop,
`running` mirrors loop liveness, and a parked `Stop` implies `running`. -/

/-- Invariant on lifecycle states preserved by every call. -/
def LifeInv (s : LifeState) : Prop :=
  s.loopCount ≤ 1 ∧ (s.running = true ↔ s.loopCount = 1) ∧
    (s.blocked = true → s.running = true)

lemma lifeInv_step (s : LifeState) (op : Op) (h : LifeInv s) :
    LifeInv (step s op).1 := by
  rcases s with ⟨running, loopCount, blocked⟩
  cases running <;> cases blocked <;> cases op <;>
    simp [step, LifeInv] at * <;> omega

lemma lifeInv_runFrom (ops : List Op) (s : LifeState) (h : LifeInv s) :
    LifeInv (runFrom s ops) := by
  induction ops generalizing s with
  | nil => simpa [runFrom] using h
  | cons op ops ih =>
      have hstep := lifeInv_step s op h
      simpa [runFrom] using ih (step s op).1 hstep

lemma lifeInv_runOps (ops : List Op) : LifeInv (runOps ops) := by
  have hinit : LifeInv initLife := by simp [LifeInv, initLife]
  simpa [runOps] using lifeInv_runFrom ops initLife hinit

/-- C1: the claim says a stop signal observed at the loop's wait point ends
the loop, that `Stop()` returns after joining the goroutine, and that no
publish follows. The code refutes this: both `select` cases have empty
bodies and the goroutine has no exit path, so an iteration woken by the
closed stop channel does not exit and still publishes a snapshot, the
deferred `wg.Done()` is unreachable, and `Stop()` on a running manager
blocks forever in `m.wg.Wait()`. -/
theorem stop_does_not_terminate_loop :
    (∀ (fetched : Except String Summary) (prev : List podEphemeralStorageStat),
        (loopIter WakeReason.stopSignal fetched prev).exited = false ∧
        (loopIter WakeReason.stopSignal fetched prev).published = pollCycle fetched prev) ∧
    (∀ s : LifeState, s.running = true →
        (step s Op.stop).2 = CallResult.neverReturns) := by
  refine ⟨fun fetched prev => ⟨rfl, rfl⟩, fun s hr => ?_⟩
  rcases s with ⟨running, loopCount, blocked⟩
  cases blocked <;> simp_all [step]

/-- C1 witness: at a concrete running manager and a concrete iteration, the
stop-woken iteration does not exit and `Stop` never returns. -/
theorem stop_does_not_terminate_loop_witness :
    (loopIter WakeReason.stopSignal (Except.error "closed") []).exited = false ∧
    (runOps [Op.start]).running = true ∧
    (step (runOps [Op.start]) Op.stop).2 = CallResult.neverReturns :=
  ⟨(stop_does_not_terminate_loop.1 (Except.error "closed") []).1, by decide,
    stop_does_not_terminate_loop.2 (runOps [Op.start]) (by decide)⟩

/-- C6: across every sequence of lifecycle calls, at most one polling loop is
ever spawned, the `running` flag equals loop liveness, and a `Start` that
acquires the lifecycle lock while the manager is running returns the
already-running error without spawning a second loop. (After a `Stop` on a
running manager has parked forever in `wg.Wait` — the C1 defect — a later
call never acquires the lock and so never returns; no loop is spawned then
either, as the invariant over arbitrary sequences shows.) -/
theorem start_while_running_invariant (ops : List Op) :
    (runOps ops).loopCount ≤ 1 ∧
    ((runOps ops).running = true ↔ (runOps ops).loopCount = 1) ∧
    ((runOps ops).running = true → (runOps ops).blocked = false →
      step (runOps ops) Op.start = (runOps ops, CallResult.alreadyRunningError)) := by
  obtain ⟨h1, h2, _⟩ := lifeInv_runOps ops
  refine ⟨h1, h2, fun hr hb => ?_⟩
  simp [step, hb, hr]

/-- C6 witness: after one `Start`, a second `Start` reports already-running
and the loop count stays 1. -/
theorem start_while_running_invariant_witness :
    (runOps [Op.start]).loopCount ≤ 1 ∧
    step (runOps [Op.start]) Op.start =
      (runOps [Op.start], CallResult.alreadyRunningError) :=
  ⟨(start_while_running_invariant [Op.start]).1,
    (start_while_running_invariant [Op.start]).2.2 (by decide) (by decide)⟩

/-- C7: on every reachable manager state that is not running, `Stop()`
returns success and leaves the state unchanged (the source logs a warning
and returns nil without touching any field). -/
theorem stop_when_not_running_noop (ops : List Op)
    (h : (runOps ops).running = false) :
    step (runOps ops) Op.stop = (runOps ops, CallResult.ok) := by
  obtain ⟨-, -, h3⟩ := lifeInv_runOps ops
  have hb : (runOps ops).blocked = false := by
    cases hB : (runOps ops).blocked
    · rfl
    · rw [h3 hB] at h; cases h
  simp [step, hb, h]

/-- C7 witness: `Stop` on the freshly constructed (never started) manager. -/
theorem stop_when_not_running_noop_witness :
    (runOps []).running = false ∧
    step (runOps []) Op.stop = (runOps [], CallResult.ok) :=
  ⟨by decide, stop_when_not_running_noop [] (by decide)⟩

/-- C2 counterexample: the claim says an erroring cycle leaves the snapshot
exactly as the previous successful cycle left it. In the source the fetch
error is only logged: the cycle falls through, the failed unmarshal leaves
the zero `Summary`, and the publish replaces the cycle-1 snapshot with the
empty one. Concretely: after a successful cycle on `okSummary` and an
erroring cycle, the snapshot is `[]`, not the cycle-1 snapshot. -/
theorem fetch_error_keeps_snapshot_cex :
    pollCycle (Except.error "connection refused")
        (pollCycle (Except.ok okSummary) []) ≠
      pollCycle (Except.ok okSummary) [] ∧
    pollCycle (Except.error "connection refused")
        (pollCycle (Except.ok okSummary) []) = [] ∧
    pollCycle (Except.ok okSummary) [] ≠ [] := by
  refine ⟨?_, rfl, ?_⟩ <;> decide

/-- C2 amended: on a fetch error the loop logs and continues without
crashing, but the cycle still publishes: decoding the absent content yields
the zero-value summary, so the manager's snapshot is replaced by the empty
snapshot rather than left unchanged. -/
theorem fetch_error_publishes_empty (e : String)
    (prev : List podEphemeralStorageStat) :
    pollCycle (Except.error e) prev = [] := rfl

/-- C3: the claim says a record with an absent byte field yields no sample
for that (metric, pod) pair, and the spec's 2-pod example should yield 5
storage samples plus the error gauge. The code instead dereferences the
nil-able pointers unconditionally (`float64(*stats.AvailableBytes)`), so on
the example snapshot — pod A complete, pod B missing `availableBytes` —
`Collect` panics with a nil-pointer dereference (modelled as `none`) and
emits no well-defined sample set at all, even though the code's own comment
acknowledges a freshly created pod may lack these fields. -/
theorem collect_panics_on_missing_field :
    Collect examplePods = none ∧
    collectEphemeralStorageInfo examplePods = none := by
  constructor <;> rfl

/-- C4 counterexample: the claim says a pod entry whose ephemeral-storage
sub-structure is absent is excluded from the snapshot. On `newPodSummary`
(one pod, nil `EphemeralStorage`) the build keeps the entry: the snapshot
has length 1, carrying a record with an absent stats sub-structure. -/
theorem missing_stats_pod_dropped_cex :
    buildSnapshot newPodSummary ≠ [] ∧
    (buildSnapshot newPodSummary).length = 1 ∧
    (buildSnapshot newPodSummary)[0]? =
      some { nodeName := "node1", podName := "pod-new",
             «namespace» := "ns1", fsStats := none } := by
  refine ⟨?_, rfl, rfl⟩
  decide

/-- C4 amended: a pod entry whose ephemeral-storage sub-structure is absent
is not dropped: it is included in the snapshot, at its payload position, as
a record with an absent (nil) stats sub-structure; the build never aborts.
(The pod reference is a non-pointer struct, so it is never absent: a payload
omitting it yields the zero value.) -/
theorem missing_stats_pod_kept (raw : Summary) (i : Nat) (p : PodStats)
    (hp : raw.pods[i]? = some p) (hs : p.ephemeralStorage = none) :
    (buildSnapshot raw)[i]? =
      some { nodeName := raw.node.nodeName, podName := p.podRef.name,
             «namespace» := p.podRef.«namespace», fsStats := none } := by
  simp [buildSnapshot, List.getElem?_map, hp, hs]

/-- C4 witness: the amended statement at the concrete one-pod payload. -/
theorem missing_stats_pod_kept_witness :
    newPodSummary.pods[0]? =
      some { podRef := { name := "pod-new", «namespace» := "ns1" }
             ephemeralStorage := none } ∧
    (buildSnapshot newPodSummary)[0]? =
      some { nodeName := "node1", podName := "pod-new",
             «namespace» := "ns1", fsStats := none } :=
  ⟨by decide,
    missing_stats_pod_kept newPodSummary 0
      { podRef := { name := "pod-new", «namespace» := "ns1" }
        ephemeralStorage := none } (by decide) rfl⟩

/-- C5 counterexample: the claim says the armed wait is never negative and
is clamped to zero when the cycle overruns the interval. The source arms the
timer with `m.scrapeInterval - duration` unclamped: with a 5s interval and a
7s cycle the armed value is -2s — negative, not zero. -/
theorem reset_arg_negative_cex :
    resetArg 5000000000 7000000000 < 0 ∧
    resetArg 5000000000 7000000000 ≠ 0 := by
  decide

/-- C5 amended: the armed value `interval - duration` is passed to
`timer.Reset` without clamping and is negative whenever the cycle overruns
the interval; the Go runtime treats a non-positive duration as an immediate
fire, so the effective wait before the next tick is `max (interval -
duration) 0`: zero (immediate) on overrun, and never negative or unbounded. -/
theorem effective_wait_clamped (scrapeInterval duration : Int)
    (h : scrapeInterval ≤ duration) :
    timerEffectiveWait (resetArg scrapeInterval duration) = 0 ∧
    0 ≤ timerEffectiveWait (resetArg scrapeInterval duration) := by
  unfold timerEffectiveWait resetArg
  exact ⟨max_eq_right (by omega), le_max_right _ _⟩

/-- C5 witness: with interval 5s and duration 7s the effective wait is 0. -/
theorem effective_wait_clamped_witness :
    (5000000000 : Int) ≤ 7000000000 ∧
    timerEffectiveWait (resetArg 5000000000 7000000000) = 0 :=
  ⟨by decide, (effective_wait_clamped 5000000000 7000000000 (by decide)).1⟩

/-- C9: the published snapshot has exactly one record per pod entry of the
decoded payload, in payload order — each record the projection of its entry
(node name from the payload's node, name/namespace from the pod reference,
and the possibly-absent ephemeral-storage sub-structure carried as-is), so
the snapshot length always equals the payload's pod count. -/
theorem snapshot_mirrors_payload (raw : Summary) :
    (buildSnapshot raw).length = raw.pods.length ∧
    ∀ i : Nat, (buildSnapshot raw)[i]? =
      (raw.pods[i]?).map (fun p =>
        { «namespace» := p.podRef.«namespace»
          nodeName := raw.node.nodeName
          podName := p.podRef.name
          fsStats := p.ephemeralStorage }) := by
  refine ⟨by simp [buildSnapshot], fun i => ?_⟩
  simp [buildSnapshot, List.getElem?_map]

/-! Heap lemmas for the pointer-level `RecentStats` model. -/

lemma deref_append_left (h ext : List podEphemeralStorageStat) (a : Nat)
    (ha : a < h.length) : deref (h ++ ext) a = deref h a := by
  unfold deref
  exact List.getD_append h ext defaultStat a ha

lemma deref_fresh (h ext : List podEphemeralStorageStat) (i : Nat) :
    deref (h ++ ext) (h.length + i) = ext.getD i defaultStat := by
  unfold deref
  rw [List.getD_append_right h ext defaultStat (h.length + i) (by omega)]
  congr 1
  omega

lemma readList_fresh (h ext : List podEphemeralStorageStat) :
    readList (h ++ ext) (List.range' h.length ext.length) = ext := by
  apply List.ext_getElem
  · simp [readList]
  · intro n h1 h2
    simp only [readList, List.getElem_map, List.getElem_range'_1]
    rw [deref_fresh h ext n, List.getD_eq_getElem?_getD,
      List.getElem?_eq_getElem h2]
    rfl

lemma deref_set_ne (h : List podEphemeralStorageStat) (a b : Nat)
    (v : podEphemeralStorageStat) (hab : a ≠ b) :
    deref (h.set a v) b = deref h b := by
  unfold deref
  rw [List.getD_eq_getElem?_getD, List.getD_eq_getElem?_getD,
    List.getElem?_set_ne hab]

/-- C8: two `RecentStats()` calls with no snapshot publish in between observe
equal snapshots — the same sequence of per-pod record values in the same
order (each call copies the records the stored pointers reference, and a
read publishes nothing, so the second copy-out dereferences the same
pointers to the same values). -/
theorem recentStats_idempotent (m : Mem) (hv : m.valid) :
    readList (RecentStats m).2.heap (RecentStats m).1 =
      readList (RecentStats ((RecentStats m).2)).2.heap
        (RecentStats ((RecentStats m).2)).1 := by
  have h2 : m.stored.map (deref (m.heap ++ m.stored.map (deref m.heap))) =
      m.stored.map (deref m.heap) :=
    List.map_congr_left fun a ha => deref_append_left _ _ a (hv a ha)
  show readList (m.heap ++ m.stored.map (deref m.heap))
      (List.range' m.heap.length m.stored.length) =
    readList ((m.heap ++ m.stored.map (deref m.heap)) ++
        m.stored.map (deref (m.heap ++ m.stored.map (deref m.heap))))
      (List.range' (m.heap ++ m.stored.map (deref m.heap)).length m.stored.length)
  rw [h2]
  have hl : m.stored.length = (m.stored.map (deref m.heap)).length :=
    (List.length_map _ _).symm
  rw [hl, readList_fresh, readList_fresh]

/-- C8 witness: the idempotence at a concrete two-record store. -/
theorem recentStats_idempotent_witness :
    exampleMem.valid ∧
    readList (RecentStats exampleMem).2.heap (RecentStats exampleMem).1 =
      readList (RecentStats ((RecentStats exampleMem).2)).2.heap
        (RecentStats ((RecentStats exampleMem).2)).1 :=
  ⟨by unfold Mem.valid; decide,
    recentStats_idempotent exampleMem (by unfold Mem.valid; decide)⟩

/-- C10: `RecentStats()` returns a freshly built copy — its cells are fresh
heap addresses whose values equal the stored records — the manager's stored
pointer slice is untouched by a read, its records read the same after the
copy-out, and overwriting any returned cell (mutating a returned record, in
particular any of its named fields) leaves the manager's stored snapshot
unchanged. -/
theorem recentStats_fresh_copy_frame (m : Mem) (hv : m.valid) :
    (RecentStats m).2.stored = m.stored ∧
    readList (RecentStats m).2.heap m.stored = readList m.heap m.stored ∧
    readList (RecentStats m).2.heap (RecentStats m).1 =
      readList m.heap m.stored ∧
    (∀ a ∈ (RecentStats m).1, ∀ v : podEphemeralStorageStat,
      readList (heapWrite (RecentStats m).2.heap a v) (RecentStats m).2.stored =
        readList m.heap m.stored) := by
  have hleft : ∀ b ∈ m.stored,
      deref (m.heap ++ m.stored.map (deref m.heap)) b = deref m.heap b :=
    fun b hb => deref_append_left _ _ b (hv b hb)
  refine ⟨rfl, ?_, ?_, ?_⟩
  · show List.map (deref (m.heap ++ m.stored.map (deref m.heap))) m.stored =
      List.map (deref m.heap) m.stored
    exact List.map_congr_left hleft
  · show readList (m.heap ++ m.stored.map (deref m.heap))
        (List.range' m.heap.length m.stored.length) =
      readList m.heap m.stored
    have hl : m.stored.length = (m.stored.map (deref m.heap)).length :=
      (List.length_map _ _).symm
    rw [hl, readList_fresh]
    rfl
  · intro a ha v
    have hge : m.heap.length ≤ a := by
      have ha2 : a ∈ List.range' m.heap.length m.stored.length := ha
      exact (List.mem_range'_1.mp ha2).1
    show List.map (deref ((m.heap ++ m.stored.map (deref m.heap)).set a v))
        m.stored =
      List.map (deref m.heap) m.stored
    refine List.map_congr_left fun b hb => ?_
    have hblt : b < m.heap.length := hv b hb
    rw [deref_set_ne _ a b v (by omega)]
    exact hleft b hb

/-- C10 witness: writing to a returned cell of a concrete store leaves the
stored snapshot's records unchanged. -/
theorem recentStats_fresh_copy_frame_witness :
    exampleMem.valid ∧
    2 ∈ (RecentStats exampleMem).1 ∧
    readList (heapWrite (RecentStats exampleMem).2.heap 2 defaultStat)
        (RecentStats exampleMem).2.stored =
      readList exampleMem.heap exampleMem.stored :=
  ⟨by unfold Mem.valid; decide, by decide,
    (recentStats_fresh_copy_frame exampleMem
      (by unfold Mem.valid; decide)).2.2.2 2 (by decide) defaultStat⟩

end EphemeralStorage
